import Mathlib

/-!
Verification of the B-app staffing-compliance engine (`src/app.py`).

Shallow embedding of the pure computational core of the application:
calendar-free date arithmetic (`dateutil.relativedelta`-style month
arithmetic and month ends), the temporal fact store queries
(`is_addon_active`, `get_capacity_at_date`), the eligibility filter
(`get_active_staff_df`), the utilization estimator
(`calculate_average_users_detail`), and the staffing requirement
calculator (the `required_staff` formula and the available-FTE loop of
the 実績・人員計算 screen).

Conventions:
* Python `datetime.date` values are `Date` records of integers; the
  order is lexicographic on (year, month, day).
* Python floats are modelled as exact rationals (`ℚ`).
* The one place the source can raise at runtime (`raw_avg` referenced
  before assignment when the open-day total is zero) is modelled with
  `Except`.
* Display-only payload (formatted formula strings, period labels) is
  abstracted to the rule tag, the numeric result and the supporting
  rows, which is what the spec says tests may assert on.
-/

namespace BApp

/-- A calendar date, as Python's `datetime.date`.  All dates handled by
the program are valid Gregorian dates (`1 ≤ month ≤ 12`,
`1 ≤ day ≤ daysInMonth year month`); the definitions below only need
the lexicographic order. -/
structure Date where
  year : Int
  month : Int
  day : Int
deriving DecidableEq, Repr

/-- Order `a < b` of `datetime.date`: lexicographic on
(year, month, day). -/
def Date.lt (a b : Date) : Prop :=
  a.year < b.year ∨ (a.year = b.year ∧
    (a.month < b.month ∨ (a.month = b.month ∧ a.day < b.day)))

/-- Order `a ≤ b` of `datetime.date`. -/
def Date.le (a b : Date) : Prop :=
  a.year < b.year ∨ (a.year = b.year ∧
    (a.month < b.month ∨ (a.month = b.month ∧ a.day ≤ b.day)))

instance : LT Date := ⟨Date.lt⟩

instance : LE Date := ⟨Date.le⟩

instance (a b : Date) : Decidable (a < b) :=
  inferInstanceAs (Decidable (_ ∨ _))

instance (a b : Date) : Decidable (a ≤ b) :=
  inferInstanceAs (Decidable (_ ∨ _))

/-- Gregorian leap-year test (as Python's `calendar` module uses). -/
def isLeap (y : Int) : Bool :=
  (y % 4 == 0 && y % 100 != 0) || y % 400 == 0

/-- Value of `calendar.monthrange(y, m)[1]`: the number of days in the month. -/
def daysInMonth (y m : Int) : Int :=
  if m = 2 then (if isLeap y then 29 else 28)
  else if m = 4 ∨ m = 6 ∨ m = 9 ∨ m = 11 then 30
  else 31

/-- Computation `math.ceil(value * 10) / 10` — the source's `ceil_decimal_1`
(`src/app.py` line 178), on exact rationals. -/
def ceil_decimal_1 (value : ℚ) : ℚ :=
  (⌈value * 10⌉ : ℚ) / 10

/-! ## Temporal fact store -/

/-- One add-on entitlement period, an entry of `wage_history`,
`transport_history` or `lunch_history`: a start date and an optional
end date.  The source stores these as dicts `{start: date|None,
end: date|None}`; `end` is a reserved word in Lean, so the field is
named `endD`. -/
structure Period where
  start : Option Date
  endD : Option Date
deriving DecidableEq, Repr

/-- Function `is_addon_active(target_date, history_list)` (`src/app.py`
line 181): walk the periods; a period with no start is skipped; an
open-ended period matches when `start ≤ t`; a closed one when
`start ≤ t ≤ end`.  The empty history returns `False` (the source's
initial `if not history_list` guard coincides with the base case). -/
def is_addon_active (target_date : Date) : List Period → Bool
  | [] => false
  | period :: rest =>
    match period.start with
    | none => is_addon_active target_date rest
    | some s =>
      match period.endD with
      | none =>
        if s ≤ target_date then true else is_addon_active target_date rest
      | some e =>
        if s ≤ target_date ∧ target_date ≤ e then true
        else is_addon_active target_date rest

/-- One capacity period, an entry of `capacity_history`:
`{start: date, count: int}`. -/
structure CapPeriod where
  start : Date
  count : Int
deriving DecidableEq, Repr

/-- The for-loop of `get_capacity_at_date`, which walks the
start-sorted history keeping the count of every period whose start is
`≤ target_date` and breaks at the first later period. -/
def cap_scan (target_date : Date) : List CapPeriod → Int → Int
  | [], current => current
  | item :: rest, current =>
    if item.start ≤ target_date then cap_scan target_date rest item.count
    else current

/-- Function `get_capacity_at_date(target_date, history_list)` (`src/app.py`
line 194): default 20 when the history is empty, else scan the history
sorted by start date. -/
def get_capacity_at_date (target_date : Date) (history_list : List CapPeriod) : Int :=
  if history_list.isEmpty then 20
  else
    cap_scan target_date
      (history_list.insertionSort fun a b => a.start ≤ b.start) 20

/-! ## Month arithmetic (`dateutil.relativedelta`, `calendar`) -/

/-- Computation `d + relativedelta(months=k)`: month-index arithmetic with the day
clamped to the length of the resulting month, exactly dateutil's
behaviour. -/
def add_months (d : Date) (k : Int) : Date :=
  let m0 : Int := d.month - 1 + k
  let y : Int := d.year + Int.fdiv m0 12
  let m : Int := Int.fmod m0 12 + 1
  ⟨y, m, min d.day (daysInMonth y m)⟩

/-- The months component of `relativedelta(target, opening)`
(`src/app.py` line 265, `diff.years * 12 + diff.months`): the raw
month-index difference, adjusted by one towards zero when adding it to
`opening` (with day clamping) overshoots `target`. -/
def elapsed_months (opening target : Date) : Int :=
  let months0 : Int :=
    (target.year - opening.year) * 12 + (target.month - opening.month)
  let dtm := add_months opening months0
  if opening ≤ target then (if target < dtm then months0 - 1 else months0)
  else (if dtm < target then months0 + 1 else months0)

/-- Computation `target_date.replace(day=1) - datetime.timedelta(days=1)`
(`src/app.py` line 302): the last day of the month preceding
`target_date`'s month. -/
def end_search (t : Date) : Date :=
  if t.month = 1 then ⟨t.year - 1, 12, 31⟩
  else ⟨t.year, t.month - 1, daysInMonth t.year (t.month - 1)⟩

/-- Computation `datetime.date(y, m, calendar.monthrange(y, m)[1])`
(`src/app.py` lines 236-237): the last day of `t`'s month. -/
def month_end (t : Date) : Date :=
  ⟨t.year, t.month, daysInMonth t.year t.month⟩

/-! ## Eligibility filter (`get_active_staff_df`) -/

/-- One row of the staff roster (`staff_master`).  The two date columns
are kept at an abstract cell type `α`: the source first normalizes them
with `safe_to_date`, whose string munging delegates to
`pandas.to_datetime`; the embedding abstracts that external parser as a
function `α → Option Date` (missing/unparseable cells become `none`,
exactly the source's `None`). -/
structure StaffRow (α : Type) where
  name : String
  mainRole : String
  subRole : String
  employment : String
  contractHours : ℚ
  subHours : ℚ
  baseShift : String
  fixedDaysOff : String
  hireDate : α
  resignDate : α
deriving DecidableEq, Repr

/-- The settings histories `get_active_staff_df` reads
(`settings.get("wage_history")` etc.). -/
structure Settings where
  wage_history : List Period
  transport_history : List Period
  lunch_history : List Period
deriving DecidableEq, Repr

/-- Computation `df["入社日"].apply(safe_to_date)` /
`df["退職日"].apply(safe_to_date)` on one row (`src/app.py`
lines 232-233). -/
def normalize_dates (safe_to_date : α → Option Date) (row : StaffRow α) :
    StaffRow (Option Date) :=
  { name := row.name, mainRole := row.mainRole, subRole := row.subRole,
    employment := row.employment, contractHours := row.contractHours,
    subHours := row.subHours, baseShift := row.baseShift,
    fixedDaysOff := row.fixedDaysOff,
    hireDate := safe_to_date row.hireDate,
    resignDate := safe_to_date row.resignDate }

/-- Hire side of the tenure test (`src/app.py` lines 243-244):
`is_hired` stays `True` unless a hire date is present and is strictly
after the month end. -/
def hired_ok (m_end : Date) : Option Date → Bool
  | none => true
  | some hire_date => !decide (m_end < hire_date)

/-- Resignation side of the tenure test (`src/app.py` lines 245-246):
`is_resigned` becomes `True` exactly when a resignation date is present
and is strictly before the target date. -/
def resigned_flag (target : Date) : Option Date → Bool
  | none => false
  | some resign_date => decide (resign_date < target)

/-- The per-row tenure test, `is_hired and not is_resigned`
(`src/app.py` line 247). -/
def tenure_keep (target m_end : Date) (hire resign : Option Date) : Bool :=
  hired_ok m_end hire && !resigned_flag target resign

/-- The `exclude_targets` list built on `src/app.py` lines 250-257:
for each inactive add-on, the corresponding primary role is excluded. -/
def addon_excluded_roles (target : Date) (settings : Settings) : List String :=
  (if is_addon_active target settings.wage_history then []
   else ["目標工賃達成指導員"]) ++
    (if is_addon_active target settings.lunch_history then []
     else ["調理員"]) ++
      (if is_addon_active target settings.transport_history then []
       else ["運転手"])

/-- Function `get_active_staff_df(original_df, settings,
target_date_obj)` (`src/app.py` line 230): normalize the two date
columns; when a target date is given, keep rows passing the tenure
test, then drop rows whose primary role (`職種(主)`) belongs to an
inactive add-on; when no target date is given, only the normalization
happens. -/
def get_active_staff_df (safe_to_date : α → Option Date)
    (original_df : List (StaffRow α)) (settings : Settings)
    (target_date_obj : Option Date) : List (StaffRow (Option Date)) :=
  let df := original_df.map (normalize_dates safe_to_date)
  match target_date_obj with
  | none => df
  | some target =>
    let m_end := month_end target
    let df := df.filter fun row =>
      tenure_keep target m_end row.hireDate row.resignDate
    let exclude_targets := addon_excluded_roles target settings
    df.filter fun row => !exclude_targets.contains row.mainRole

/-! ## Utilization estimator (`calculate_average_users_detail`) -/

/-- One row of `monthly_records`: the `年月` key (parsed by the source
into the first day of the month), `延べ利用者数` (attendance days) and
`開所日数` (open days). -/
structure MonthlyRecord where
  ymYear : Int
  ymMonth : Int
  users : Int
  days : Int
deriving DecidableEq, Repr

/-- Computation `pd.to_datetime(..."年月"...).dt.date` (`src/app.py`
lines 288-289): the record's month as its first day. -/
def MonthlyRecord.date (r : MonthlyRecord) : Date :=
  ⟨r.ymYear, r.ymMonth, 1⟩

/-- Which of the estimator's rules produced the result; stands for the
source's `rule_name` strings (the prose of which is display-only). -/
inductive CalcRule where
  | newFacility       -- 【新規開所特例】
  | noRecords         -- 実績データなし
  | prevFiscalYear    -- 【前年度実績】
  | trailingWindow    -- 【直近実績】
  | insufficientPeriod -- 実績不足
deriving DecidableEq, Repr

/-- The estimator's returned `explanation` dict, restricted to the
contract-relevant fields: rule tag, numeric result, supporting rows
(`details_df`, `None` in the sentinel branches). -/
structure CalcDetail where
  rule_name : CalcRule
  result : ℚ
  details_df : Option (List MonthlyRecord)
deriving DecidableEq, Repr

/-- A runtime error the source can actually raise. -/
inductive RunErr where
  | unboundLocalRawAvg
deriving DecidableEq, Repr

instance {ε α : Type} [DecidableEq ε] [DecidableEq α] :
    DecidableEq (Except ε α)
  | .ok a, .ok b =>
    if h : a = b then .isTrue (by rw [h]) else .isFalse (by simp [h])
  | .error a, .error b =>
    if h : a = b then .isTrue (by rw [h]) else .isFalse (by simp [h])
  | .ok _, .error _ => .isFalse (by simp)
  | .error _, .ok _ => .isFalse (by simp)

/-- Computation `datetime.date(last_fiscal_year, 4, 1)` (`src/app.py`
lines 277-279): start of the fiscal year before the one containing
`t`. -/
def prev_fy_start (t : Date) : Date :=
  let current_fiscal_year := if 4 ≤ t.month then t.year else t.year - 1
  ⟨current_fiscal_year - 1, 4, 1⟩

/-- Computation `datetime.date(last_fiscal_year + 1, 3, 31)`
(`src/app.py` line 280): end of the fiscal year before the one
containing `t`. -/
def prev_fy_end (t : Date) : Date :=
  let current_fiscal_year := if 4 ≤ t.month then t.year else t.year - 1
  ⟨current_fiscal_year, 3, 31⟩

/-- The `df_prev` mask (`src/app.py` line 291): records inside the
prior fiscal year. -/
def prev_fy_records (t : Date) (records : List MonthlyRecord) :
    List MonthlyRecord :=
  records.filter fun r =>
    decide (prev_fy_start t ≤ r.date ∧ r.date ≤ prev_fy_end t)

/-- Computation `opening_date <= prev_start` (`src/app.py` line 293). -/
def is_experienced (t opening : Date) : Bool :=
  decide (opening ≤ prev_fy_start t)

/-- The `actual_start` of the trailing window (`src/app.py`
lines 302-305): eleven months before the last day of the month
preceding the target month, replaced by the first day of the opening
month when the opening date is later. -/
def trailing_start (t opening : Date) : Date :=
  let start_search_12 := add_months (end_search t) (-11)
  if start_search_12 < opening then ⟨opening.year, opening.month, 1⟩
  else start_search_12

/-- The `df_recent` selection (`src/app.py` lines 306-307): records
with month-date in `[actual_start, end_search]`, sorted by date. -/
def trailing_records (t opening : Date) (records : List MonthlyRecord) :
    List MonthlyRecord :=
  (records.filter fun r =>
      decide (trailing_start t opening ≤ r.date ∧ r.date ≤ end_search t)
    ).insertionSort fun a b => a.date ≤ b.date

/-- The `target_df` / `rule_text` choice (`src/app.py` lines 298-309):
prior-fiscal-year records when the facility existed for the whole prior
fiscal year and some record falls in it, the trailing window
otherwise. -/
def select_support (t opening : Date) (records : List MonthlyRecord) :
    CalcRule × List MonthlyRecord :=
  if is_experienced t opening && !(prev_fy_records t records).isEmpty then
    (.prevFiscalYear, prev_fy_records t records)
  else
    (.trailingWindow, trailing_records t opening records)

/-- Function `calculate_average_users_detail(target_date, opening_date,
capacity_history, records_df)` (`src/app.py` line 264).  The branches
mirror the source in order: new-facility exception, empty record set,
support-set selection, empty support set, then the averaging.  When the
support set's open-day total is zero the source assigns `result = 0.0`
but the very next f-string reads `raw_avg`, a local assigned only in
the other branch, so the call raises `UnboundLocalError`; that is the
`.error` case. -/
def calculate_average_users_detail (target_date opening_date : Date)
    (capacity_history : List CapPeriod) (records : List MonthlyRecord) :
    Except RunErr CalcDetail :=
  let elapsed := elapsed_months opening_date target_date
  let current_capacity := get_capacity_at_date target_date capacity_history
  if elapsed < 6 then
    .ok { rule_name := .newFacility,
          result := ceil_decimal_1 ((current_capacity : ℚ) * (9 / 10)),
          details_df := none }
  else if records.isEmpty then
    .ok { rule_name := .noRecords, result := 0, details_df := none }
  else
    let sel := select_support target_date opening_date records
    if sel.2.isEmpty then
      .ok { rule_name := .insufficientPeriod, result := 0, details_df := none }
    else
      let total_users := (sel.2.map MonthlyRecord.users).sum
      let total_days := (sel.2.map MonthlyRecord.days).sum
      if total_days = 0 then
        .error .unboundLocalRawAvg
      else
        .ok { rule_name := sel.1,
              result := ceil_decimal_1 ((total_users : ℚ) / (total_days : ℚ)),
              details_df := some sel.2 }

/-! ## Staffing requirement calculator (実績・人員計算 screen) -/

/-- The countable roles of the available-FTE loop, `target_roles`
(`src/app.py` line 847). -/
def target_roles : List String :=
  ["職業指導員", "生活支援員", "目標工賃達成指導員"]

/-- The `staff_target_hours` accumulator of the available-FTE loop
(`src/app.py` lines 850-855): hours of a countable primary role
(contracted minus secondary, clamped at 0) plus hours of a countable
secondary role — one combined figure, not one per role. -/
def staff_target_hours (staff : StaffRow (Option Date)) : ℚ :=
  let total_hours := staff.contractHours
  let sub_hours := staff.subHours
  let main_hours := max 0 (total_hours - sub_hours)
  (if staff.mainRole ∈ target_roles then main_hours else 0) +
    (if staff.subRole ∈ target_roles then sub_hours else 0)

/-- One iteration of the available-FTE loop (`src/app.py`
lines 849-859): the combined countable hours divided by the full-time
weekly hours, capped at 1.0 per person in total (rows with no countable
hours add nothing). -/
def staff_fte (fulltime_weekly_hours : ℚ) (staff : StaffRow (Option Date)) :
    ℚ :=
  if 0 < staff_target_hours staff then
    let fte := staff_target_hours staff / fulltime_weekly_hours
    if 1 < fte then 1 else fte
  else 0

/-- The `actual_fte` accumulator over the active staff (`src/app.py`
lines 846-859), before the display-only `round(actual_fte, 1)`. -/
def actual_fte (fulltime_weekly_hours : ℚ)
    (staff : List (StaffRow (Option Date))) : ℚ :=
  (staff.map (staff_fte fulltime_weekly_hours)).sum

/-- Modelled from the spec (for comparison with `staff_fte`): the
per-role-bucket contribution described by claim C2 — `mainHours /
fulltimeWeeklyHours` toward a countable primary role's bucket and,
separately, `secondaryHours / fulltimeWeeklyHours` toward a countable
secondary role's bucket, each capped at 1.0 per person per bucket. -/
def claimed_bucket_contribution (fulltime_weekly_hours : ℚ)
    (staff : StaffRow (Option Date)) (role : String) : ℚ :=
  let main_hours := max 0 (staff.contractHours - staff.subHours)
  (if staff.mainRole = role ∧ role ∈ target_roles then
      min (main_hours / fulltime_weekly_hours) 1
    else 0) +
    (if staff.subRole = role ∧ role ∈ target_roles then
        min (staff.subHours / fulltime_weekly_hours) 1
      else 0)

/-- The required-FTE computation (`src/app.py` lines 837-840):
`base_staff = avg_users / r` (where `r` is the screen's
`service_ratio`), `add_staff` is 1.0 when the wage-incentive add-on is
active, and the total is rounded up to one decimal. -/
def required_staff (avg_users : ℚ) (r : ℚ) (wage_active : Bool) : ℚ :=
  let base_staff := avg_users / r
  let add_staff : ℚ := if wage_active then 1 else 0
  ceil_decimal_1 (base_staff + add_staff)

/-! ## Concrete inputs used by scenarios, counterexamples and
witnesses -/

/-- The default `capacity_history` of `DEFAULT_SETTINGS` (`src/app.py`
line 160): capacity 20 from the opening date 2024-11-01. -/
def default_capacity_history : List CapPeriod :=
  [⟨⟨2024, 11, 1⟩, 20⟩]

/-- A wage-incentive history with one open-ended period starting
2024-11-01. -/
def open_wage_history : List Period :=
  [⟨some ⟨2024, 11, 1⟩, none⟩]

/-- Monthly records for each of the eight months 2024-11 … 2025-06
(100 attendance days over 20 open days each). -/
def recs_8_months : List MonthlyRecord :=
  [⟨2024, 11, 100, 20⟩, ⟨2024, 12, 100, 20⟩, ⟨2025, 1, 100, 20⟩,
   ⟨2025, 2, 100, 20⟩, ⟨2025, 3, 100, 20⟩, ⟨2025, 4, 100, 20⟩,
   ⟨2025, 5, 100, 20⟩, ⟨2025, 6, 100, 20⟩]

/-- The 2024-11 record of `recs_8_months`. -/
def nov_record : MonthlyRecord := ⟨2024, 11, 100, 20⟩

/-- A record set whose only (trailing-window) record has zero open
days. -/
def zero_days_records : List MonthlyRecord := [⟨2025, 6, 0, 0⟩]

/-- The spec scenario staff member: contracted 40h, secondary-role
hours 5h, countable primary role 職業指導員, countable secondary role
生活支援員, hired 2024-04-01. -/
def scenario_staff : StaffRow (Option Date) :=
  { name := "甲", mainRole := "職業指導員", subRole := "生活支援員",
    employment := "常勤", contractHours := 40, subHours := 5,
    baseShift := "A", fixedDaysOff := "土,日",
    hireDate := some ⟨2024, 4, 1⟩, resignDate := none }

/-- A representable part-time staff member with 60 contracted hours, 30
of them on the countable secondary role (the staff editor's
契約時間(週) input has no upper bound for 非常勤 rows). -/
def overtime_staff : StaffRow (Option Date) :=
  { name := "乙", mainRole := "職業指導員", subRole := "生活支援員",
    employment := "非常勤", contractHours := 60, subHours := 30,
    baseShift := "A", fixedDaysOff := "",
    hireDate := some ⟨2024, 4, 1⟩, resignDate := none }

/-! ## Theorems -/

theorem Date.not_le {a b : Date} : ¬a ≤ b ↔ b < a := by
  show ¬Date.le a b ↔ Date.lt b a
  unfold Date.le Date.lt
  omega

theorem Date.not_lt {a b : Date} : ¬a < b ↔ b ≤ a := by
  show ¬Date.lt a b ↔ Date.le b a
  unfold Date.le Date.lt
  omega

theorem daysInMonth_pos (y m : Int) : 1 ≤ daysInMonth y m := by
  unfold daysInMonth
  split
  · split <;> omega
  · split <;> omega

/-- C8: `ceilToOneDecimal`, defined as `ceil(x * 10) / 10`, is
idempotent — for every x, `ceilToOneDecimal (ceilToOneDecimal x)`
equals `ceilToOneDecimal x` — and its result is always greater than or
equal to its input. -/
theorem ceil_decimal_1_idempotent_ge (x : ℚ) :
    ceil_decimal_1 (ceil_decimal_1 x) = ceil_decimal_1 x ∧
      x ≤ ceil_decimal_1 x := by
  constructor
  · unfold ceil_decimal_1
    rw [div_mul_cancel₀ (⌈x * 10⌉ : ℚ) (by norm_num : (10 : ℚ) ≠ 0)]
    rw [Int.ceil_intCast]
  · unfold ceil_decimal_1
    rw [le_div_iff₀ (by norm_num : (0 : ℚ) < 10)]
    exact Int.le_ceil (x * 10)

theorem ceil_decimal_1_add_one (x : ℚ) :
    ceil_decimal_1 (x + 1) = ceil_decimal_1 x + 1 := by
  unfold ceil_decimal_1
  have h : (x + 1) * 10 = x * 10 + (10 : ℤ) := by push_cast; ring
  rw [h, Int.ceil_add_int]
  push_cast
  ring

/-- C3: for every averageUtilization value and every serviceRatio in
{6.0, 7.5, 10.0}, the required-FTE number equals
ceilToOneDecimal(averageUtilization / serviceRatio) plus 1.0 when the
wage-incentive add-on is active on the target date, and plus 0.0
otherwise. -/
theorem required_staff_addon_split (avg_users r : ℚ) (target : Date)
    (wage_history : List Period)
    (_hr : r = 6 ∨ r = 15 / 2 ∨ r = 10) :
    required_staff avg_users r (is_addon_active target wage_history) =
      ceil_decimal_1 (avg_users / r) +
        (if is_addon_active target wage_history then 1 else 0) := by
  cases h : is_addon_active target wage_history
  · simp [required_staff, h]
  · simp only [required_staff, h, if_true]
    exact ceil_decimal_1_add_one (avg_users / r)

/-- Witness for C3 at averageUtilization 18, serviceRatio 6 and a
target date on which the wage add-on is active. -/
theorem required_staff_addon_split_witness :
    required_staff 18 6 (is_addon_active ⟨2025, 2, 1⟩ open_wage_history) =
      ceil_decimal_1 (18 / 6) +
        (if is_addon_active ⟨2025, 2, 1⟩ open_wage_history then 1 else 0) :=
  required_staff_addon_split 18 6 ⟨2025, 2, 1⟩ open_wage_history (Or.inl rfl)

/-- C5: whenever the month-truncated difference between the target date
and the opening date is less than 6 months,
`calculate_average_users_detail` applies the new-facility exception and
returns ceilToOneDecimal(capacityAt(targetDate) * 0.9) with no
supporting rows, regardless of what monthly records exist; for opening
date 2024-11-01, capacity 20 and target month 2025-02 (elapsed months
= 3) the result is 18.0. -/
theorem new_facility_rule (target opening : Date)
    (capacity_history : List CapPeriod) (records : List MonthlyRecord)
    (h : elapsed_months opening target < 6) :
    calculate_average_users_detail target opening capacity_history records =
      .ok { rule_name := .newFacility,
            result := ceil_decimal_1
              ((get_capacity_at_date target capacity_history : ℚ) * (9 / 10)),
            details_df := none } ∧
      calculate_average_users_detail ⟨2025, 2, 1⟩ ⟨2024, 11, 1⟩
          default_capacity_history [] =
        .ok { rule_name := .newFacility, result := 18, details_df := none } := by
  constructor
  · unfold calculate_average_users_detail
    rw [if_pos h]
  · have helapsed : elapsed_months ⟨2024, 11, 1⟩ ⟨2025, 2, 1⟩ < 6 := by decide
    have hcap : get_capacity_at_date ⟨2025, 2, 1⟩ default_capacity_history = 20 := by
      decide
    unfold calculate_average_users_detail
    rw [if_pos helapsed, hcap]
    have h180 : ((20 : ℤ) : ℚ) * (9 / 10) * 10 = ((180 : ℤ) : ℚ) := by norm_num
    unfold ceil_decimal_1
    rw [h180, Int.ceil_intCast]
    norm_num

/-- Witness for C5: opening 2024-11-01 and target 2025-02-01 give
elapsed months 3 < 6, and the new-facility branch fires even though a
record exists. -/
theorem new_facility_rule_witness :
    calculate_average_users_detail ⟨2025, 2, 1⟩ ⟨2024, 11, 1⟩
        default_capacity_history recs_8_months =
      .ok { rule_name := .newFacility,
            result := ceil_decimal_1
              ((get_capacity_at_date ⟨2025, 2, 1⟩ default_capacity_history : ℚ)
                * (9 / 10)),
            details_df := none } :=
  (new_facility_rule ⟨2025, 2, 1⟩ ⟨2024, 11, 1⟩ default_capacity_history
    recs_8_months (by decide)).1

/-- C10: for every roster and settings, `get_active_staff_df` called
without a target date returns the roster with hire and resignation
dates normalized but with no staff member removed: neither the tenure
test nor the add-on gating is applied. -/
theorem no_target_date_no_filter {α : Type} (safe_to_date : α → Option Date)
    (original_df : List (StaffRow α)) (settings : Settings) :
    get_active_staff_df safe_to_date original_df settings none =
      original_df.map (normalize_dates safe_to_date) := rfl

/-- C9: a staff row whose hire date was normalized to `none` is never
excluded on the hire side of the tenure test, a missing resignation
date never marks the row as resigned, and a row with both dates missing
passes the tenure test for every target date. -/
theorem missing_dates_keep_staff (target m_end : Date)
    (hire resign : Option Date) (hh : hire = none) :
    hired_ok m_end hire = true ∧
      (resign = none → resigned_flag target resign = false) ∧
      (resign = none → tenure_keep target m_end hire resign = true) := by
  subst hh
  refine ⟨rfl, ?_, ?_⟩ <;> rintro rfl <;> rfl

/-- Witness for C9 at a concrete target date and month end. -/
theorem missing_dates_keep_staff_witness :
    hired_ok ⟨2025, 1, 31⟩ none = true ∧
      ((none : Option Date) = none →
        resigned_flag ⟨2025, 1, 15⟩ none = false) ∧
      ((none : Option Date) = none →
        tenure_keep ⟨2025, 1, 15⟩ ⟨2025, 1, 31⟩ none none = true) :=
  missing_dates_keep_staff ⟨2025, 1, 15⟩ ⟨2025, 1, 31⟩ none none rfl

/-- C4: the tenure test of the eligibility filter excludes exactly
those staff whose hire date is strictly after the last day of the
target month, or whose resignation date is present and strictly before
the target date; and a staff member hired on the first day of the
target month (with no resignation date) passes the tenure test for any
target date in that month. -/
theorem tenure_test_characterization (target : Date)
    (hire resign : Option Date) :
    (tenure_keep target (month_end target) hire resign = false ↔
      (∃ h, hire = some h ∧ month_end target < h) ∨
        (∃ r, resign = some r ∧ r < target)) ∧
      ∀ y m d : Int,
        tenure_keep ⟨y, m, d⟩ (month_end ⟨y, m, d⟩) (some ⟨y, m, 1⟩) none =
          true := by
  constructor
  · cases hire <;> cases resign
    · simp [tenure_keep, hired_ok, resigned_flag]
    · simp [tenure_keep, hired_ok, resigned_flag]
    · simp [tenure_keep, hired_ok, resigned_flag]
    · simp only [tenure_keep, hired_ok, resigned_flag, Bool.and_eq_false_iff,
        Bool.not_eq_false', decide_eq_true_eq, Option.some.injEq]
      constructor
      · rintro (h1 | h2)
        · exact Or.inl ⟨_, rfl, h1⟩
        · exact Or.inr ⟨_, rfl, h2⟩
      · rintro (⟨h, hh, hlt⟩ | ⟨r, hr, hlt⟩)
        · cases hh
          exact Or.inl hlt
        · cases hr
          exact Or.inr hlt
  · intro y m d
    have hd := daysInMonth_pos y m
    simp only [tenure_keep, hired_ok, resigned_flag, month_end,
      Bool.and_eq_true, Bool.not_eq_true', decide_eq_false_iff_not]
    refine ⟨?_, trivial⟩
    show ¬Date.lt _ _
    unfold Date.lt
    dsimp only
    omega

/-- Witness for C4 at a concrete target date, hire date and resignation
date (row excluded: hired after month end). -/
theorem tenure_test_characterization_witness :
    (tenure_keep ⟨2025, 5, 10⟩ (month_end ⟨2025, 5, 10⟩)
        (some ⟨2025, 6, 1⟩) none = false ↔
      (∃ h, (some ⟨2025, 6, 1⟩ : Option Date) = some h ∧
          month_end ⟨2025, 5, 10⟩ < h) ∨
        (∃ r, (none : Option Date) = some r ∧ r < (⟨2025, 5, 10⟩ : Date))) ∧
      ∀ y m d : Int,
        tenure_keep ⟨y, m, d⟩ (month_end ⟨y, m, d⟩) (some ⟨y, m, 1⟩) none =
          true :=
  tenure_test_characterization ⟨2025, 5, 10⟩ (some ⟨2025, 6, 1⟩) none

/-- C6: `is_addon_active d periods` is true iff some period having a
start date covers `d` — start inclusive, end inclusive when present,
unbounded when absent (a period with no start never matches); for a
history whose only period is `{start := s, end := none}` the result
equals `s ≤ d`; and the result is false whenever `d` is before every
period start. -/
theorem is_addon_active_spec (d : Date) (H : List Period) :
    (is_addon_active d H = true ↔
      ∃ p ∈ H, ∃ s, p.start = some s ∧ s ≤ d ∧
        (p.endD = none ∨ ∃ e, p.endD = some e ∧ d ≤ e)) ∧
      (∀ s : Date, is_addon_active d [⟨some s, none⟩] = decide (s ≤ d)) ∧
      ((∀ p ∈ H, ∀ s, p.start = some s → d < s) →
        is_addon_active d H = false) := by
  have main : ∀ L : List Period, (is_addon_active d L = true ↔
      ∃ p ∈ L, ∃ s, p.start = some s ∧ s ≤ d ∧
        (p.endD = none ∨ ∃ e, p.endD = some e ∧ d ≤ e)) := by
    intro L
    induction L with
    | nil => simp [is_addon_active]
    | cons p rest ih =>
      rcases hs : p.start with _ | s
      · simp [is_addon_active, hs, ih]
      · rcases he : p.endD with _ | e
        · by_cases hsd : s ≤ d
          · simp [is_addon_active, hs, he, hsd]
          · simp [is_addon_active, hs, he, hsd, ih]
        · by_cases hcov : s ≤ d ∧ d ≤ e
          · simp [is_addon_active, hs, he, hcov]
          · simp only [is_addon_active, hs, he, if_neg hcov, ih,
              List.mem_cons]
            constructor
            · rintro ⟨q, hq, rest_h⟩
              exact ⟨q, Or.inr hq, rest_h⟩
            · rintro ⟨q, hq | hq, t, hts, htd, hend⟩
              · exfalso
                subst hq
                rw [hs] at hts
                cases hts
                rcases hend with hnone | ⟨e2, he2, hde2⟩
                · rw [he] at hnone
                  cases hnone
                · rw [he] at he2
                  cases he2
                  exact hcov ⟨htd, hde2⟩
              · exact ⟨q, hq, t, hts, htd, hend⟩
  refine ⟨main H, ?_, ?_⟩
  · intro s
    by_cases hsd : s ≤ d
    · simp [is_addon_active, hsd]
    · simp [is_addon_active, hsd]
  · intro hall
    by_contra hne
    rw [Bool.not_eq_false, main H] at hne
    obtain ⟨p, hp, s, hps, hsd, _⟩ := hne
    exact absurd hsd (Date.not_le.mpr (hall p hp s hps))

/-- Witness for C6 at the spec's transport scenario: one open-ended
period starting 2024-11-01, probed at 2024-11-01. -/
theorem is_addon_active_spec_witness :
    (is_addon_active ⟨2024, 11, 1⟩ open_wage_history = true ↔
      ∃ p ∈ open_wage_history, ∃ s, p.start = some s ∧
        s ≤ (⟨2024, 11, 1⟩ : Date) ∧
        (p.endD = none ∨ ∃ e, p.endD = some e ∧ (⟨2024, 11, 1⟩ : Date) ≤ e)) ∧
      (∀ s : Date, is_addon_active ⟨2024, 11, 1⟩ [⟨some s, none⟩] =
        decide (s ≤ (⟨2024, 11, 1⟩ : Date))) ∧
      ((∀ p ∈ open_wage_history, ∀ s, p.start = some s →
          (⟨2024, 11, 1⟩ : Date) < s) →
        is_addon_active ⟨2024, 11, 1⟩ open_wage_history = false) :=
  is_addon_active_spec ⟨2024, 11, 1⟩ open_wage_history

/-- C7 (code bug): at target 2025-07-01 with opening date 2024-01-01
(elapsed months 18, so no new-facility exception), the only record,
2025-06 with zero open days, is selected by the trailing window, so the
support set is non-empty with open-day total 0; the source then sets
`result = 0.0` but the next statement formats the explanation f-string
from `raw_avg`, a local assigned only in the non-zero branch, so the
call raises UnboundLocalError instead of returning the claimed 0.0
sentinel. -/
theorem zero_open_days_unbound_local :
    calculate_average_users_detail ⟨2025, 7, 1⟩ ⟨2024, 1, 1⟩
        default_capacity_history zero_days_records =
      .error .unboundLocalRawAvg := by decide

/-- C1 counterexample: at target month 2025-07 with opening date
2024-11-01 the elapsed months are 8 (inside `[6, 12)`), the
prior-fiscal-year precondition fails, and with a record present for
each month 2024-11 … 2025-06 the trailing-window rule selects all eight
records — including the 2024-11 record, whose month precedes
2025-01, the start of the 6 full months preceding the target month —
not the claimed six. -/
theorem trailing_window_six_month_counterexample :
    (calculate_average_users_detail ⟨2025, 7, 1⟩ ⟨2024, 11, 1⟩
          default_capacity_history recs_8_months).toOption.map
        CalcDetail.details_df = some (some recs_8_months) ∧
      elapsed_months ⟨2024, 11, 1⟩ ⟨2025, 7, 1⟩ = 8 ∧
      nov_record ∈ recs_8_months ∧
      nov_record.date < (⟨2025, 1, 1⟩ : Date) := by
  refine ⟨by decide, by decide, by decide, by decide⟩

/-- C1 (amended): whenever the prior-fiscal-year rule's precondition
fails, the trailing-window rule selects as support set exactly the
records whose month-date lies between `trailing_start` — the day eleven
calendar months before the last day of the month preceding the target
month (day-of-month kept, clamped to the month's length), replaced by
the first day of the opening month when the opening date lies strictly
after that day — and that last day, inclusive on both ends; the
elapsed-month count plays no further part in the selection. -/
theorem trailing_window_selects_clamped_window (t opening : Date)
    (records : List MonthlyRecord)
    (hpre : ¬(is_experienced t opening = true ∧
      prev_fy_records t records ≠ [])) :
    select_support t opening records =
      (.trailingWindow, trailing_records t opening records) ∧
      ∀ r, r ∈ trailing_records t opening records ↔
        r ∈ records ∧ trailing_start t opening ≤ r.date ∧
          r.date ≤ end_search t := by
  constructor
  · unfold select_support
    rw [if_neg]
    intro hcond
    apply hpre
    rw [Bool.and_eq_true, Bool.not_eq_true'] at hcond
    refine ⟨hcond.1, fun hnil => ?_⟩
    have h2 := hcond.2
    rw [hnil] at h2
    simp at h2
  · intro r
    unfold trailing_records
    rw [List.mem_insertionSort, List.mem_filter, decide_eq_true_eq]

/-- Witness for C1 (amended) at the counterexample's input. -/
theorem trailing_window_selects_clamped_window_witness :
    select_support ⟨2025, 7, 1⟩ ⟨2024, 11, 1⟩ recs_8_months =
      (.trailingWindow,
        trailing_records ⟨2025, 7, 1⟩ ⟨2024, 11, 1⟩ recs_8_months) :=
  (trailing_window_selects_clamped_window ⟨2025, 7, 1⟩ ⟨2024, 11, 1⟩
    recs_8_months (by decide)).1

/-- C2 counterexample: a representable staff member with contracted
60h, secondary-role hours 30h, countable primary and secondary roles
and full-time 40h: per the claim the person contributes
min(30/40, 1) = 3/4 to each of the two role buckets, 3/2 in total; the
code instead computes one combined figure min(60/40, 1) = 1, so the
contributions are not the claimed per-bucket quotients capped per
bucket. -/
theorem fte_per_bucket_cap_counterexample :
    staff_fte 40 overtime_staff = 1 ∧
      claimed_bucket_contribution 40 overtime_staff "職業指導員" = 3 / 4 ∧
      claimed_bucket_contribution 40 overtime_staff "生活支援員" = 3 / 4 ∧
      staff_fte 40 overtime_staff ≠
        claimed_bucket_contribution 40 overtime_staff "職業指導員" +
          claimed_bucket_contribution 40 overtime_staff "生活支援員" := by
  have hns : ¬("生活支援員" : String) = "職業指導員" := by decide
  have hns2 : ¬("職業指導員" : String) = "生活支援員" := by decide
  refine ⟨?_, ?_, ?_, ?_⟩ <;>
    norm_num [staff_fte, staff_target_hours, claimed_bucket_contribution,
      overtime_staff, target_roles, hns, hns2]

/-- C2 (amended): the available-FTE loop tracks one combined figure per
staff member — countable primary-role hours (contracted minus
secondary, clamped at 0) plus countable secondary-role hours, divided
by the full-time weekly hours, capped at 1.0 per person in total, not
per role bucket; when the combined countable hours are non-negative and
at most the full-time hours the cap does not bind and the contribution
is exactly the quotient, and the claim's scenario staff member
(contracted 40h, secondary 5h, both roles countable, full-time 40h)
contributes 35/40 + 5/40 = 1.0 in total, uncapped, matching the
claimed bucket amounts 0.875 and 0.125 only as summands of the single
figure. -/
theorem fte_combined_contribution (F : ℚ) (s : StaffRow (Option Date))
    (hF : 0 < F) (h0 : 0 ≤ staff_target_hours s)
    (hle : staff_target_hours s ≤ F) :
    staff_fte F s = staff_target_hours s / F ∧
      staff_fte 40 scenario_staff = 35 / 40 + 5 / 40 ∧
      claimed_bucket_contribution 40 scenario_staff "職業指導員" = 35 / 40 ∧
      claimed_bucket_contribution 40 scenario_staff "生活支援員" = 5 / 40 := by
  refine ⟨?_, ?_, ?_, ?_⟩
  · unfold staff_fte
    rcases lt_or_eq_of_le h0 with hpos | hzero
    · rw [if_pos hpos]
      have hone : staff_target_hours s / F ≤ 1 := by
        rw [div_le_one hF]
        exact hle
      rw [if_neg (not_lt.mpr hone)]
    · rw [if_neg (by rw [← hzero]; exact lt_irrefl 0), ← hzero, zero_div]
  · norm_num [staff_fte, staff_target_hours, scenario_staff, target_roles]
  · have hns : ¬("生活支援員" : String) = "職業指導員" := by decide
    norm_num [claimed_bucket_contribution, scenario_staff, target_roles, hns]
  · have hns2 : ¬("職業指導員" : String) = "生活支援員" := by decide
    norm_num [claimed_bucket_contribution, scenario_staff, target_roles, hns2]

/-- Witness for C2 (amended) at the scenario staff member. -/
theorem fte_combined_contribution_witness :
    staff_fte 40 scenario_staff = staff_target_hours scenario_staff / 40 ∧
      staff_fte 40 scenario_staff = 35 / 40 + 5 / 40 ∧
      claimed_bucket_contribution 40 scenario_staff "職業指導員" = 35 / 40 ∧
      claimed_bucket_contribution 40 scenario_staff "生活支援員" = 5 / 40 :=
  fte_combined_contribution 40 scenario_staff (by norm_num)
    (by norm_num [staff_target_hours, scenario_staff, target_roles])
    (by norm_num [staff_target_hours, scenario_staff, target_roles])

end BApp
